import Mathlib

set_option maxRecDepth 10000

/-!
Shallow embedding of the eu_einvoice application core (profile model,
code resolution, forward mapping of line items and tax rows, reverse
mapping of line items and purchase-order allocation, schematron
validation composition), together with theorems settling the frozen
claims about its natural-language specification.

Python strings are modelled as Lean `String` (sequences of code points),
machine floats that hold exact monetary values as `ℚ`, Python `None` as
`Option.none`, and Python truthiness of a string as the test against `""`
(and of a number as the test against `0`).  External collaborators
(the frappe database, the erpnext code-list service, the drafthorse
document model, the Saxon schematron engine) enter as explicit function
parameters.
-/

namespace EUEInvoice

/-! ## eu_einvoice/utils.py -/

/-- Profiles according to Factur-X, in the declaration order of the
Python `Enum` (`BASIC`, `EN16931`, `EXTENDED`, `XRECHNUNG`). -/
inductive EInvoiceProfile where
  | BASIC
  | EN16931
  | EXTENDED
  | XRECHNUNG
deriving DecidableEq, BEq, Repr, Fintype

/-- The explicit comparison order used by `EInvoiceProfile.__lt__`
(`order = [BASIC, EN16931, XRECHNUNG, EXTENDED]`). -/
def comparisonOrder : List EInvoiceProfile :=
  [EInvoiceProfile.BASIC, EInvoiceProfile.EN16931,
   EInvoiceProfile.XRECHNUNG, EInvoiceProfile.EXTENDED]

/-- The declaration order of the enum members in the source. -/
def declarationOrder : List EInvoiceProfile :=
  [EInvoiceProfile.BASIC, EInvoiceProfile.EN16931,
   EInvoiceProfile.EXTENDED, EInvoiceProfile.XRECHNUNG]

/-- `EInvoiceProfile.__lt__`: compare positions in `comparisonOrder`. -/
def EInvoiceProfile.lt (a b : EInvoiceProfile) : Bool :=
  decide (comparisonOrder.indexOf a < comparisonOrder.indexOf b)

/-- `PROFILE_TO_GUIDELINE`: map of profile to
GuidelineSpecifiedDocumentContextParameter. -/
def PROFILE_TO_GUIDELINE : EInvoiceProfile → String
  | EInvoiceProfile.BASIC =>
      "urn:cen.eu:en16931:2017#compliant#urn:factur-x.eu:1p0:basic"
  | EInvoiceProfile.EN16931 => "urn:cen.eu:en16931:2017"
  | EInvoiceProfile.XRECHNUNG =>
      "urn:cen.eu:en16931:2017#compliant#urn:xeinkauf.de:kosit:xrechnung_3.0"
  | EInvoiceProfile.EXTENDED =>
      "urn:cen.eu:en16931:2017#conformant#urn:factur-x.eu:1p0:extended"

/-- The keys of the Python dict `PROFILE_TO_GUIDELINE`, in insertion order. -/
def profileDictOrder : List EInvoiceProfile :=
  [EInvoiceProfile.BASIC, EInvoiceProfile.EN16931,
   EInvoiceProfile.XRECHNUNG, EInvoiceProfile.EXTENDED]

/-- `GUIDELINE_TO_PROFILE = {v: k for k, v in PROFILE_TO_GUIDELINE.items()}`,
as an association list (guideline string, profile). -/
def GUIDELINE_TO_PROFILE : List (String × EInvoiceProfile) :=
  profileDictOrder.map (fun p => (PROFILE_TO_GUIDELINE p, p))

/-- `get_guideline(profile)`: total dict lookup (every profile is a key). -/
def get_guideline (p : EInvoiceProfile) : String :=
  PROFILE_TO_GUIDELINE p

/-- `get_profile(guideline)`: `.get` on `GUIDELINE_TO_PROFILE`, `None` when
the guideline string is not a key. -/
def get_profile (g : String) : Option EInvoiceProfile :=
  (GUIDELINE_TO_PROFILE.find? (fun kv => kv.1 == g)).map Prod.snd

/-! ## eu_einvoice/common_codes.py

`CommonCodeRetriever` holds an ordered list of code-list names and a static
default code.  The erpnext code-list service is external; it enters as two
function parameters:
`gcf` models `get_codes_for(code_list, doctype, name)` (the list of matching
codes) and `gdc` models `get_default_code(code_list)` (`none` when the code
list has no configured default). -/

structure CommonCodeRetriever where
  code_lists : List String
  default_code : String

/-- The inner loop of `CommonCodeRetriever.get_code` for one code list:
iterate the records in order, skip records with a falsy (empty) name,
and break with the first non-empty `get_codes_for` result. -/
def lookupRecords (gcf : String → String → String → List String) (cl : String) :
    List (String × String) → Option (List String)
  | [] => none
  | (dt, nm) :: rest =>
    if nm = "" then lookupRecords gcf cl rest
    else
      match gcf cl dt nm with
      | [] => lookupRecords gcf cl rest
      | c :: cs => some (c :: cs)

/-- The outer loop of `CommonCodeRetriever.get_code`: iterate the code lists
in priority order and break with the first non-empty codes result. -/
def firstHitCodes (gcf : String → String → String → List String) :
    List String → List (String × String) → Option (List String)
  | [], _ => none
  | cl :: rest, records =>
    match lookupRecords gcf cl records with
    | some codes => some codes
    | none => firstHitCodes gcf rest records

/-- `CommonCodeRetriever.get_code`: `codes[0] if codes else None`. -/
def CommonCodeRetriever.get_code (r : CommonCodeRetriever)
    (gcf : String → String → String → List String)
    (records : List (String × String)) : Option String :=
  (firstHitCodes gcf r.code_lists records).bind List.head?

/-- The loop of `CommonCodeRetriever.get_default_code`: return the first
truthy (non-`None`, non-empty) configured default code. -/
def defaultFromLists (gdc : String → Option String) : List String → Option String
  | [] => none
  | cl :: rest =>
    match gdc cl with
    | some d => if d = "" then defaultFromLists gdc rest else some d
    | none => defaultFromLists gdc rest

/-- `CommonCodeRetriever.get_default_code`. -/
def CommonCodeRetriever.get_default_code (r : CommonCodeRetriever)
    (gdc : String → Option String) : Option String :=
  defaultFromLists gdc r.code_lists

/-- Python `x or y` where `x` is an optional string (`None` and `""` are
falsy) and `y` a string. -/
def pyOrStr (x : Option String) (y : String) : String :=
  match x with
  | some s => if s = "" then y else s
  | none => y

/-- `CommonCodeRetriever.get`:
`self.get_code(records) or self.get_default_code() or self.default_code`. -/
def CommonCodeRetriever.get (r : CommonCodeRetriever)
    (gcf : String → String → String → List String)
    (gdc : String → Option String)
    (records : List (String × String)) : String :=
  pyOrStr (r.get_code gcf records) (pyOrStr (r.get_default_code gdc) r.default_code)

/-- Well-formedness of the external code-list service: every code it returns
is a non-empty string. -/
def CodesNonEmpty (gcf : String → String → String → List String) : Prop :=
  ∀ cl dt nm c, c ∈ gcf cl dt nm → c ≠ ""

/-- Well-formedness of the external code-list service: every configured
default code is a non-empty string. -/
def DefaultsNonEmpty (gdc : String → Option String) : Prop :=
  ∀ cl d, gdc cl = some d → d ≠ ""

/-- The resolution algorithm exactly as the spec describes it: scan code
lists in priority order, and within each the candidate pairs in the given
order; the first pair with a non-empty value that has an entry in some code
list wins and its (first) code is returned; otherwise the first configured
per-code-list default code in the same priority order; otherwise the static
default.  Written from the spec's words, to be compared with
`CommonCodeRetriever.get` (which is written from the source). -/
def specResolve (gcf : String → String → String → List String)
    (gdc : String → Option String) (code_lists : List String)
    (static_default : String) (records : List (String × String)) : String :=
  let hit : Option String :=
    code_lists.findSome? fun cl =>
      records.findSome? fun rec =>
        if rec.2 = "" then none else (gcf cl rec.1 rec.2).head?
  match hit with
  | some c => c
  | none =>
    match code_lists.findSome? gdc with
    | some d => d
    | none => static_default

/-! ## The module-level retriever instances of custom/sales_invoice.py -/

/-- `uom_codes`. -/
def uom_codes : CommonCodeRetriever :=
  ⟨["urn:xoev-de:kosit:codeliste:rec20_3", "urn:xoev-de:kosit:codeliste:rec21_3"], "C62"⟩

/-- `payment_means_codes`. -/
def payment_means_codes : CommonCodeRetriever :=
  ⟨["urn:xoev-de:xrechnung:codeliste:untdid.4461_3"], "ZZZ"⟩

/-- `duty_tax_fee_category_codes`. -/
def duty_tax_fee_category_codes : CommonCodeRetriever :=
  ⟨["urn:xoev-de:kosit:codeliste:untdid.5305_3"], "S"⟩

/-- `vat_exemption_reason_codes`. -/
def vat_exemption_reason_codes : CommonCodeRetriever :=
  ⟨["urn:xoev-de:kosit:codeliste:vatex_1"], "vatex-eu-ae"⟩

/-! ## Monetary rounding

`frappe.utils.flt(value, precision)` and Python's built-in `round` both
round half to even (banker's rounding). -/

/-- Round a rational to the nearest integer, ties to even. -/
def roundHalfEven (x : ℚ) : ℤ :=
  if x - ⌊x⌋ < 1 / 2 then ⌊x⌋
  else if 1 / 2 < x - ⌊x⌋ then ⌊x⌋ + 1
  else if ⌊x⌋ % 2 = 0 then ⌊x⌋ else ⌊x⌋ + 1

/-- `frappe.utils.flt(x, p)`: round to `p` decimal digits, ties to even. -/
def flt (x : ℚ) (p : ℕ) : ℚ :=
  (roundHalfEven (x * 10 ^ p) : ℚ) / 10 ^ p

/-- Python `round(x, 2)`. -/
def pythonRound2 (x : ℚ) : ℚ :=
  (roundHalfEven (x * 100) : ℚ) / 100

/-! ## EInvoiceGenerator._add_line_item: amounts (custom/sales_invoice.py)

The numeric part of the emitted line item: `li.agreement.net.amount`
and the amount component of `li.delivery.billed_quantity` (the unit-code
component, resolved via `uom_codes`, carries no numeric content and is kept
out of this record). -/

structure LineItemEmission where
  net_amount : ℚ
  billed_quantity : ℚ
deriving DecidableEq, Repr

/-- Sign normalization and emission of a line item's rate and quantity:
`multiplier = -1 if item.net_rate < 0 and item.qty > 0 else 1`, applied to
the `flt`-rounded rate and quantity (`p_rate` and `p_qty` are the field
precisions `item.precision("net_rate")` and `item.precision("qty")`). -/
def addLineItemAmounts (net_rate qty : ℚ) (p_rate p_qty : ℕ) : LineItemEmission :=
  let multiplier : ℚ := if net_rate < 0 ∧ 0 < qty then -1 else 1
  { net_amount := flt net_rate p_rate * multiplier,
    billed_quantity := flt qty p_qty * multiplier }

/-! ## Tax rows of the invoice aggregate -/

/-- One row of `invoice.taxes` (Sales Taxes and Charges).  `net_amount` and
`custom_net_amount` are `none` when the attribute is absent on the row
(`hasattr` is false). -/
structure SalesTax where
  charge_type : String
  rate : ℚ
  tax_amount : ℚ
  total : ℚ
  account_head : String
  net_amount : Option ℚ
  custom_net_amount : Option ℚ
deriving DecidableEq, Repr

/-- One row of an Item Tax Template's `taxes` child table. -/
structure ItemTaxRow where
  tax_type : String
  tax_rate : ℚ
deriving DecidableEq, Repr

/-- The tail of `get_item_rate`: collect the rates of the "On Net Total"
rows and return the single one, else `None`. -/
def singleOnNetTotalRate (taxes : List SalesTax) : Option ℚ :=
  match (taxes.filter (fun t => t.charge_type = "On Net Total")).map SalesTax.rate with
  | [r] => some r
  | _ => none

/-- `get_item_rate(item_tax_template, taxes)`.  `fetchTemplate` models
`frappe.get_doc("Item Tax Template", name).taxes`.  When a template name is
given (truthy), the first template row whose `tax_type` account occurs among
the truthy `account_head`s of the invoice's tax rows wins; otherwise fall
through to the single on-net-total rate. -/
def get_item_rate (fetchTemplate : String → List ItemTaxRow)
    (item_tax_template : Option String) (taxes : List SalesTax) : Option ℚ :=
  match item_tax_template with
  | some tmpl =>
    if tmpl = "" then singleOnNetTotalRate taxes
    else
      match (fetchTemplate tmpl).find? (fun it =>
        ((taxes.filter (fun t => t.account_head ≠ "")).map SalesTax.account_head).contains
          it.tax_type) with
      | some it => some it.tax_rate
      | none => singleOnNetTotalRate taxes
  | none => singleOnNetTotalRate taxes

/-! ## EInvoiceGenerator._add_line_item: trade tax (custom/sales_invoice.py) -/

/-- Python `str.upper()` on the code points of the string (code-point-wise
uppercasing, the same map Lean's `String.toUpper` performs). -/
def pyUpper (s : String) : String := String.mk (s.data.map Char.toUpper)

/-- The zero-rated/exempt category codes of rules BR-AE-05, BR-E-05,
BR-G-05, BR-IC-05, BR-Z-05. -/
def zeroRatedCategories : List String := ["AE", "E", "G", "K", "Z"]

/-- The candidate records a line item feeds into `duty_tax_fee_category_codes`
and `vat_exemption_reason_codes`.  A `None` item tax template is a falsy
record value and is skipped by the retriever. -/
def lineItemTaxRecords (item_tax_template : Option String)
    (income_account tax_category taxes_and_charges : String) :
    List (String × String) :=
  [("Item Tax Template", item_tax_template.getD ""),
   ("Account", income_account),
   ("Tax Category", tax_category),
   ("Sales Taxes and Charges Template", taxes_and_charges)]

/-- The trade-tax part of `_add_line_item`: resolve the category code; force
the rate to 0 for zero-rated/exempt categories, otherwise take
`get_item_rate` (which may be `None`); when the resulting rate value equals
0 (Python `None == 0` is false), resolve and attach the upper-cased
exemption reason code.  Returns (category, rate, exemption reason). -/
def addLineItemTax (gcf : String → String → String → List String)
    (gdc : String → Option String) (fetchTemplate : String → List ItemTaxRow)
    (item_tax_template : Option String)
    (income_account tax_category taxes_and_charges : String)
    (taxes : List SalesTax) : String × Option ℚ × Option String :=
  let records := lineItemTaxRecords item_tax_template income_account
    tax_category taxes_and_charges
  let category := duty_tax_fee_category_codes.get gcf gdc records
  let rate : Option ℚ :=
    if zeroRatedCategories.contains category then some 0
    else get_item_rate fetchTemplate item_tax_template taxes
  let exemption : Option String :=
    if rate = some 0 then
      some (pyUpper (vat_exemption_reason_codes.get gcf gdc records))
    else none
  (category, rate, exemption)

/-! ## EInvoiceGenerator._add_taxes_and_charges (custom/sales_invoice.py) -/

/-- The invoice-level inputs of tax-row reconstruction. -/
structure InvoiceCtx where
  net_total : ℚ
  tax_category : String
  taxes_and_charges : String
deriving Repr

/-- An emitted `ApplicableTradeTax` element. -/
structure EmittedTradeTax where
  type_code : String
  category_code : String
  rate_applicable_percent : Option ℚ
  basis_amount : ℚ
  calculated_amount : ℚ
deriving DecidableEq, Repr

/-- The candidate records a tax row feeds into
`duty_tax_fee_category_codes`. -/
def taxRowRecords (tax : SalesTax) (ctx : InvoiceCtx) : List (String × String) :=
  [("Account", tax.account_head),
   ("Tax Category", ctx.tax_category),
   ("Sales Taxes and Charges Template", ctx.taxes_and_charges)]

/-- `tax_rate = tax.rate or frappe.db.get_value("Account", tax.account_head,
"tax_rate") or 0`.  `atr` models the external account lookup. -/
def effectiveTaxRate (atr : String → Option ℚ) (tax : SalesTax) : ℚ :=
  if tax.rate ≠ 0 then tax.rate else (atr tax.account_head).getD 0

/-- The "On Net Total" branch of `_add_taxes_and_charges`.
`item_tax_rates` is the Python set the generator accumulated from
`get_item_rate` over the line items (its elements may be `None`), modelled
as its list of distinct elements; `len` is the list length and `pop` on a
one-element set yields its head. -/
def onNetTotalTradeTax (gcf : String → String → String → List String)
    (gdc : String → Option String) (atr : String → Option ℚ) (ctx : InvoiceCtx)
    (taxes : List SalesTax) (item_tax_rates : List (Option ℚ))
    (tax : SalesTax) : EmittedTradeTax :=
  let tax_rate := effectiveTaxRate atr tax
  let basisAndRate : ℚ × Option ℚ :=
    if taxes.length = 1 then
      if item_tax_rates.length = 1 ∧ tax_rate = 0 then
        (ctx.net_total, item_tax_rates.headD none)
      else (ctx.net_total, some tax_rate)
    else
      match tax.net_amount with
      | some v => (v, some tax_rate)
      | none =>
        match tax.custom_net_amount with
        | some v => (v, some tax_rate)
        | none =>
          if tax.tax_amount ≠ 0 ∧ tax_rate ≠ 0 then
            (pythonRound2 (tax.tax_amount / tax_rate * 100), some tax_rate)
          else (0, some tax_rate)
  { type_code := "VAT",
    category_code := duty_tax_fee_category_codes.get gcf gdc (taxRowRecords tax ctx),
    rate_applicable_percent := basisAndRate.2,
    basis_amount := basisAndRate.1,
    calculated_amount := tax.tax_amount }

/-- Python list subscription with negative-index wraparound
(`l[i]`, `None` standing for the raised `IndexError`). -/
def pyGet (l : List α) (i : ℤ) : Option α :=
  if 0 ≤ i then l.get? i.toNat
  else if (-i).toNat ≤ l.length then l.get? (l.length - (-i).toNat) else none

/-- The "On Previous Row Amount" / "On Previous Row Total" branches of
`_add_taxes_and_charges`, parameterized by which field of the preceding row
(`self.invoice.taxes[i - 1]`) supplies the basis amount: `tax_amount` for
the former, `total` for the latter.  `none` models the `IndexError` that a
genuinely out-of-range subscript would raise. -/
def onPreviousRowTradeTax (basis_source : SalesTax → ℚ)
    (gcf : String → String → String → List String) (gdc : String → Option String)
    (ctx : InvoiceCtx) (taxes : List SalesTax) (i : ℕ) (tax : SalesTax) :
    Option EmittedTradeTax :=
  match pyGet taxes ((i : ℤ) - 1) with
  | none => none
  | some prev =>
    some { type_code := if prev.charge_type = "Actual" then "VAT" else "SUR",
           category_code := duty_tax_fee_category_codes.get gcf gdc (taxRowRecords tax ctx),
           rate_applicable_percent := some tax.rate,
           basis_amount := basis_source prev,
           calculated_amount := tax.tax_amount }

/-- The "On Previous Row Amount" branch. -/
def onPreviousRowAmountTradeTax := onPreviousRowTradeTax SalesTax.tax_amount

/-- The "On Previous Row Total" branch. -/
def onPreviousRowTotalTradeTax := onPreviousRowTradeTax SalesTax.total

/-! ## Schematron validation composition

`get_validation_errors(xml_string, profile)` delegates to the external
Saxon engine; it enters as the parameter `gve`, returning
(errors, warnings). -/

/-- The validation part of `validate_einvoice` (generation side): run the
profile's rule set, and for XRECHNUNG additionally run the EN16931 baseline
rule set and concatenate its errors and warnings after the first pass's. -/
def validate_einvoice_validation (gve : String → EInvoiceProfile → List String × List String)
    (xml : String) (p : EInvoiceProfile) : List String × List String :=
  let ew := gve xml p
  if p = EInvoiceProfile.XRECHNUNG then
    let basic := gve xml EInvoiceProfile.EN16931
    (ew.1 ++ basic.1, ew.2 ++ basic.2)
  else ew

/-- The validation part of `EInvoiceImport._validate_schematron` (import
side): a single `get_validation_errors` call with the document's profile. -/
def import_validate_schematron (gve : String → EInvoiceProfile → List String × List String)
    (xml : String) (p : EInvoiceProfile) : List String × List String :=
  gve xml p

/-! ## EInvoiceImport.parse_line_item (e_invoice_import.py) -/

/-- The product-name handling of `parse_line_item`: names longer than 140
characters are cut at 140 and the description becomes the FULL original
name, `" | "`, and the original description. -/
def parseLineItemName (product_name_full product_description : String) :
    String × String :=
  if product_name_full.length > 140 then
    (product_name_full.take 140, product_name_full ++ " | " ++ product_description)
  else
    (product_name_full, product_description)

/-- The net-rate derivation of `parse_line_item`:
`net_rate = float(li.agreement.net.amount._value)`,
`basis_qty = float(li.agreement.net.basis_quantity._amount or "1")`,
`rate = net_rate / basis_qty`.  drafthorse parses a present BasisQuantity
into a `Decimal` and leaves `_amount` at a falsy default when the element is
absent, so the Python `or "1"` replaces both an absent quantity and an
explicit `Decimal("0")` by 1.  The result is `none` exactly when the
division would raise `ZeroDivisionError`. -/
def parseLineItemNetRate (net_amount : ℚ) (basis_quantity : Option ℚ) : Option ℚ :=
  let basis_qty : ℚ :=
    match basis_quantity with
    | none => 1
    | some q => if q = 0 then 1 else q
  if basis_qty = 0 then none else some (net_amount / basis_qty)

/-! ## EInvoiceImport.guess_po_details (e_invoice_import.py) -/

/-- One row of `purchase_order.items`. -/
structure PurchaseOrderRow where
  name : String
  item_code : String
  amount : ℚ
  billed_amt : ℚ
deriving DecidableEq, Repr

/-- The working dicts `po_items` built at the start of `guess_po_details`:
name, item code and remaining unbilled amount. -/
structure POItemState where
  name : String
  item_code : String
  unbilled_amount : ℚ
deriving DecidableEq, Repr

/-- One row of the import record's `items` table, restricted to the fields
`guess_po_details` reads and writes. -/
structure EInvoiceItemRow where
  item : Option String
  total_amount : ℚ
  po_detail : Option String
deriving DecidableEq, Repr

/-- `po_items = [dict(name=.., item_code=.., unbilled_amount=amount - billed_amt) ...]`. -/
def mkPOItems (rows : List PurchaseOrderRow) : List POItemState :=
  rows.map (fun r => ⟨r.name, r.item_code, r.amount - r.billed_amt⟩)

/-- The inner `for po_row in po_items` loop: find the first order line with
the same item and sufficient remaining unbilled amount; on success return
its name and the list with the allocated amount consumed. -/
def findAlloc : List POItemState → EInvoiceItemRow → Option (String × List POItemState)
  | [], _ => none
  | po :: rest, row =>
    if row.item = some po.item_code ∧ row.total_amount ≤ po.unbilled_amount then
      some (po.name, { po with unbilled_amount := po.unbilled_amount - row.total_amount } :: rest)
    else
      match findAlloc rest row with
      | some (n, rest2) => some (n, po :: rest2)
      | none => none

/-- `pi_row.po_detail and frappe.db.exists("Purchase Order Item",
{"name": pi_row.po_detail, "parent": self.purchase_order})`: the existing
allocation is truthy and names a child row of the selected order. -/
def validPoDetail (valid : List String) (d : Option String) : Bool :=
  match d with
  | some s => if s = "" then false else valid.contains s
  | none => false

/-- The outer `for pi_row in self.items` loop, threading the consumable
`po_items` state: already-valid allocations are skipped unchanged, otherwise
first-fit allocate (the loop's `else` clause clears `po_detail` on failure). -/
def guessPoGo (valid : List String) :
    List POItemState → List EInvoiceItemRow → List EInvoiceItemRow
  | _, [] => []
  | pos, row :: rest =>
    if validPoDetail valid row.po_detail then
      row :: guessPoGo valid pos rest
    else
      match findAlloc pos row with
      | some (n, pos2) => { row with po_detail := some n } :: guessPoGo valid pos2 rest
      | none => { row with po_detail := none } :: guessPoGo valid pos rest

/-- `guess_po_details`: with no selected purchase order all `po_detail`
fields are cleared; otherwise allocate against the order's rows. -/
def guess_po_details (purchase_order : Option (List PurchaseOrderRow))
    (items : List EInvoiceItemRow) : List EInvoiceItemRow :=
  match purchase_order with
  | none => items.map (fun row => { row with po_detail := none })
  | some rows => guessPoGo (rows.map PurchaseOrderRow.name) (mkPOItems rows) items

/-! ## Concrete fixtures used by witnesses and counterexamples -/

/-- Code-list lookup with no entries at all. -/
def gcfNoHits : String → String → String → List String := fun _ _ _ => []

/-- Default-code service giving D2 for code list L2 only. -/
def gdcOnlyL2 : String → Option String := fun cl => if cl = "L2" then some "D2" else none

/-- Default-code service with no configured defaults at all. -/
def gdcNone : String → Option String := fun _ => none

/-- Code-list lookup resolving every candidate of the UNTDID 5305 duty/tax
category list to "Z" and nothing else. -/
def gcfCategoryZ : String → String → String → List String :=
  fun cl _ _ => if cl = "urn:xoev-de:kosit:codeliste:untdid.5305_3" then ["Z"] else []

/-- Item Tax Template fetcher with no template rows. -/
def fetchNoTemplate : String → List ItemTaxRow := fun _ => []

/-- Account tax-rate lookup with no configured rates. -/
def atrNone : String → Option ℚ := fun _ => none

/-- A schematron engine whose single error line is the profile's guideline;
it distinguishes the profiles the engine is invoked with. -/
def gveByProfile : String → EInvoiceProfile → List String × List String :=
  fun _ p => ([get_guideline p], [])

/-- A 141-character product name. -/
def longName141 : String := String.mk (List.replicate 141 'a')

/-- A single on-net-total tax row with rate 19 and a truthy account head. -/
def exampleOnNetTax : SalesTax :=
  ⟨"On Net Total", 19, 0, 0, "VAT 19 - C", none, none⟩

/-- A single on-net-total tax row with rate 0 (no rate specified on the
row and none configured on the account). -/
def exampleZeroRateTax : SalesTax :=
  ⟨"On Net Total", 0, 0, 0, "VAT - C", none, none⟩

end EUEInvoice

namespace EUEInvoice

/-! ## Claim C1 -/

/-- C1: the profile comparison is a strict total order on the four profiles
consistent with BASIC < EN16931 < XRECHNUNG < EXTENDED (a chain that differs
from the enum declaration order), and the guideline-to-profile mapping is the
exact inverse of the profile-to-guideline mapping: `get_profile ∘ get_guideline`
is the identity on profiles, and `get_guideline ∘ get_profile` is the identity
on the guideline strings of the table. -/
theorem profile_order_and_guideline_roundtrip :
    (∀ a : EInvoiceProfile, EInvoiceProfile.lt a a = false) ∧
    (∀ a b c : EInvoiceProfile,
      EInvoiceProfile.lt a b = true → EInvoiceProfile.lt b c = true →
      EInvoiceProfile.lt a c = true) ∧
    (∀ a b : EInvoiceProfile, EInvoiceProfile.lt a b = true →
      EInvoiceProfile.lt b a = false) ∧
    (∀ a b : EInvoiceProfile, a ≠ b →
      EInvoiceProfile.lt a b = true ∨ EInvoiceProfile.lt b a = true) ∧
    (EInvoiceProfile.lt EInvoiceProfile.BASIC EInvoiceProfile.EN16931 = true ∧
     EInvoiceProfile.lt EInvoiceProfile.EN16931 EInvoiceProfile.XRECHNUNG = true ∧
     EInvoiceProfile.lt EInvoiceProfile.XRECHNUNG EInvoiceProfile.EXTENDED = true) ∧
    comparisonOrder ≠ declarationOrder ∧
    (∀ p : EInvoiceProfile, get_profile (get_guideline p) = some p) ∧
    (GUIDELINE_TO_PROFILE.all
      (fun kv => (get_profile kv.1).map get_guideline == some kv.1) = true) := by
  decide

/-- C1 witness: the theorem applied at concrete profiles, discharging the
hypotheses of its trichotomy component at BASIC and EXTENDED. -/
theorem profile_order_and_guideline_roundtrip_witness :
    EInvoiceProfile.BASIC ≠ EInvoiceProfile.EXTENDED ∧
    (EInvoiceProfile.lt EInvoiceProfile.BASIC EInvoiceProfile.EXTENDED = true ∨
     EInvoiceProfile.lt EInvoiceProfile.EXTENDED EInvoiceProfile.BASIC = true) :=
  ⟨by decide,
   profile_order_and_guideline_roundtrip.2.2.2.1 EInvoiceProfile.BASIC
     EInvoiceProfile.EXTENDED (by decide)⟩

/-! ## Claim C2 -/

theorem lookupRecords_head_eq (gcf : String → String → String → List String)
    (cl : String) (records : List (String × String)) :
    (lookupRecords gcf cl records).bind List.head? =
      records.findSome? fun rec =>
        if rec.2 = "" then none else (gcf cl rec.1 rec.2).head? := by
  induction records with
  | nil => rfl
  | cons rec rest ih =>
    obtain ⟨dt, nm⟩ := rec
    by_cases h : nm = ""
    · simp [lookupRecords, List.findSome?, h, ih]
    · cases hg : gcf cl dt nm with
      | nil => simp [lookupRecords, List.findSome?, h, hg, ih]
      | cons c cs => simp [lookupRecords, List.findSome?, h, hg]

theorem lookupRecords_some_ne_nil (gcf : String → String → String → List String)
    (cl : String) (records : List (String × String)) (codes : List String)
    (hl : lookupRecords gcf cl records = some codes) : codes ≠ [] := by
  induction records with
  | nil => simp [lookupRecords] at hl
  | cons rec rest ih =>
    obtain ⟨dt, nm⟩ := rec
    by_cases hnm : nm = ""
    · simp only [lookupRecords, if_pos hnm] at hl
      exact ih hl
    · simp only [lookupRecords, if_neg hnm] at hl
      cases hg : gcf cl dt nm with
      | nil => rw [hg] at hl; exact ih hl
      | cons c cs =>
        rw [hg] at hl
        simp only [Option.some.injEq] at hl
        rw [← hl]
        simp

theorem firstHitCodes_head_eq (gcf : String → String → String → List String)
    (cls : List String) (records : List (String × String)) :
    (firstHitCodes gcf cls records).bind List.head? =
      cls.findSome? fun cl =>
        records.findSome? fun rec =>
          if rec.2 = "" then none else (gcf cl rec.1 rec.2).head? := by
  induction cls with
  | nil => rfl
  | cons cl rest ih =>
    cases hl : lookupRecords gcf cl records with
    | none =>
      have h0 := lookupRecords_head_eq gcf cl records
      rw [hl] at h0
      simp [firstHitCodes, List.findSome?, hl, ← h0, ih]
    | some codes =>
      have h0 := lookupRecords_head_eq gcf cl records
      rw [hl] at h0
      cases codes with
      | nil => exact absurd rfl (lookupRecords_some_ne_nil gcf cl records [] hl)
      | cons c cs =>
        simp at h0
        simp [firstHitCodes, List.findSome?, hl, ← h0]

theorem lookupRecords_codes_nonempty (gcf : String → String → String → List String)
    (h : CodesNonEmpty gcf) (cl : String) (records : List (String × String))
    (codes : List String) (hl : lookupRecords gcf cl records = some codes) :
    ∀ c ∈ codes, c ≠ "" := by
  induction records with
  | nil => simp [lookupRecords] at hl
  | cons rec rest ih =>
    obtain ⟨dt, nm⟩ := rec
    by_cases hnm : nm = ""
    · simp only [lookupRecords, if_pos hnm] at hl
      exact ih hl
    · simp only [lookupRecords, if_neg hnm] at hl
      cases hg : gcf cl dt nm with
      | nil => rw [hg] at hl; exact ih hl
      | cons c cs =>
        rw [hg] at hl
        simp only [Option.some.injEq] at hl
        intro x hx
        exact h cl dt nm x (by rw [hg, hl]; exact hx)

theorem firstHitCodes_head_nonempty (gcf : String → String → String → List String)
    (h : CodesNonEmpty gcf) (cls : List String) (records : List (String × String))
    (c : String) (hc : (firstHitCodes gcf cls records).bind List.head? = some c) :
    c ≠ "" := by
  induction cls with
  | nil => simp [firstHitCodes] at hc
  | cons cl rest ih =>
    cases hl : lookupRecords gcf cl records with
    | none =>
      simp only [firstHitCodes, hl] at hc
      exact ih hc
    | some codes =>
      simp only [firstHitCodes, hl] at hc
      cases codes with
      | nil => exact absurd rfl (lookupRecords_some_ne_nil gcf cl records [] hl)
      | cons x xs =>
        simp at hc
        rw [← hc]
        exact lookupRecords_codes_nonempty gcf h cl records (x :: xs) hl x (by simp)

theorem get_code_nonempty (r : CommonCodeRetriever)
    (gcf : String → String → String → List String) (h : CodesNonEmpty gcf)
    (records : List (String × String)) (c : String)
    (hc : r.get_code gcf records = some c) : c ≠ "" :=
  firstHitCodes_head_nonempty gcf h r.code_lists records c hc

theorem defaultFromLists_nonempty (gdc : String → Option String)
    (cls : List String) (d : String) (hd : defaultFromLists gdc cls = some d) :
    d ≠ "" := by
  induction cls with
  | nil => simp [defaultFromLists] at hd
  | cons cl rest ih =>
    cases hg : gdc cl with
    | none =>
      simp only [defaultFromLists, hg] at hd
      exact ih hd
    | some x =>
      simp only [defaultFromLists, hg] at hd
      by_cases hx : x = ""
      · rw [if_pos hx] at hd; exact ih hd
      · rw [if_neg hx] at hd
        cases hd
        exact hx

theorem defaultFromLists_eq (gdc : String → Option String)
    (h : DefaultsNonEmpty gdc) (cls : List String) :
    defaultFromLists gdc cls = cls.findSome? gdc := by
  induction cls with
  | nil => rfl
  | cons cl rest ih =>
    cases hg : gdc cl with
    | none => simp [defaultFromLists, List.findSome?, hg, ih]
    | some d =>
      have hd : d ≠ "" := h cl d hg
      simp [defaultFromLists, List.findSome?, hg, hd, ih]

/-- C2: `CommonCodeRetriever.get` implements exactly the resolution order the
spec describes (first hit over code lists in priority order and candidate
pairs in given order, skipping empty values; then the first per-code-list
default in priority order; then the static default), provided the external
code-list service only produces non-empty codes and non-empty defaults. -/
theorem common_code_retriever_get_spec
    (gcf : String → String → String → List String) (gdc : String → Option String)
    (h1 : CodesNonEmpty gcf) (h2 : DefaultsNonEmpty gdc)
    (r : CommonCodeRetriever) (records : List (String × String)) :
    r.get gcf gdc records = specResolve gcf gdc r.code_lists r.default_code records := by
  unfold CommonCodeRetriever.get specResolve
  have hhit : (r.code_lists.findSome? fun cl =>
      records.findSome? fun rec =>
        if rec.2 = "" then none else (gcf cl rec.1 rec.2).head?) =
      r.get_code gcf records :=
    (firstHitCodes_head_eq gcf r.code_lists records).symm
  rw [hhit]
  cases hc : r.get_code gcf records with
  | some c =>
    have : c ≠ "" := get_code_nonempty r gcf h1 records c hc
    simp [pyOrStr, this]
  | none =>
    have hdef : r.get_default_code gdc = r.code_lists.findSome? gdc :=
      defaultFromLists_eq gdc h2 r.code_lists
    rw [← hdef]
    cases hd : r.get_default_code gdc with
    | some d =>
      have : d ≠ "" := defaultFromLists_nonempty gdc r.code_lists d hd
      simp [pyOrStr, this]
    | none => simp [pyOrStr]

/-- C2 witness: the theorem applied to the spec's own scenarios.  With code
lists `[L1, L2]`, no matches anywhere and only `L2` configured with default
`D2`, resolution returns `D2`; with no per-list default at all and static
default `S`, it returns `S`. -/
theorem common_code_retriever_get_spec_witness :
    CodesNonEmpty gcfNoHits ∧ DefaultsNonEmpty gdcOnlyL2 ∧ DefaultsNonEmpty gdcNone ∧
    CommonCodeRetriever.get ⟨["L1", "L2"], "S"⟩ gcfNoHits gdcOnlyL2 [("DT", "x")] = "D2" ∧
    CommonCodeRetriever.get ⟨["L1", "L2"], "S"⟩ gcfNoHits gdcNone [("DT", "x")] = "S" := by
  have hcodes : CodesNonEmpty gcfNoHits := by intro cl dt nm c hc; simp [gcfNoHits] at hc
  have hd1 : DefaultsNonEmpty gdcOnlyL2 := by
    intro cl d hd
    simp only [gdcOnlyL2] at hd
    by_cases h : cl = "L2"
    · rw [if_pos h] at hd; cases hd; decide
    · rw [if_neg h] at hd; cases hd
  have hd2 : DefaultsNonEmpty gdcNone := by intro cl d hd; simp [gdcNone] at hd
  refine ⟨hcodes, hd1, hd2, ?_, ?_⟩
  · rw [common_code_retriever_get_spec gcfNoHits gdcOnlyL2 hcodes hd1
      ⟨["L1", "L2"], "S"⟩ [("DT", "x")]]
    decide
  · rw [common_code_retriever_get_spec gcfNoHits gdcNone hcodes hd2
      ⟨["L1", "L2"], "S"⟩ [("DT", "x")]]
    decide

/-! ## Claim C3 -/

theorem roundHalfEven_intCast (n : ℤ) : roundHalfEven (n : ℚ) = n := by
  unfold roundHalfEven
  rw [Int.floor_intCast]
  norm_num

theorem flt_intCast (n : ℤ) (p : ℕ) : flt (n : ℚ) p = n := by
  unfold flt
  have h : ((n : ℚ) * 10 ^ p) = ((n * 10 ^ p : ℤ) : ℚ) := by push_cast; ring
  rw [h, roundHalfEven_intCast]
  push_cast
  have hp : (10 : ℚ) ^ p ≠ 0 := by positivity
  field_simp

/-- C3: if the line's net rate is negative and its quantity positive, both
the emitted net amount and the emitted billed quantity are the otherwise
emitted (`flt`-rounded) values multiplied by -1; in every other sign
combination both are emitted unchanged.  Concretely rate -10 with quantity 5
emits rate 10 and quantity -5, and rate -10 with quantity -5 is left
unchanged. -/
theorem line_item_sign_normalization (net_rate qty : ℚ) (p_rate p_qty : ℕ) :
    (net_rate < 0 ∧ 0 < qty →
      addLineItemAmounts net_rate qty p_rate p_qty =
        { net_amount := -flt net_rate p_rate, billed_quantity := -flt qty p_qty }) ∧
    (¬(net_rate < 0 ∧ 0 < qty) →
      addLineItemAmounts net_rate qty p_rate p_qty =
        { net_amount := flt net_rate p_rate, billed_quantity := flt qty p_qty }) ∧
    addLineItemAmounts (-10) 5 p_rate p_qty =
      { net_amount := 10, billed_quantity := -5 } ∧
    addLineItemAmounts (-10) (-5) p_rate p_qty =
      { net_amount := -10, billed_quantity := -5 } := by
  have e10 : flt (-10) p_rate = (-10 : ℚ) := by
    have h := flt_intCast (-10) p_rate
    push_cast at h
    exact h
  have e5 : flt 5 p_qty = (5 : ℚ) := by
    have h := flt_intCast 5 p_qty
    push_cast at h
    exact h
  have em5 : flt (-5) p_qty = (-5 : ℚ) := by
    have h := flt_intCast (-5) p_qty
    push_cast at h
    exact h
  refine ⟨?_, ?_, ?_, ?_⟩
  · intro h
    simp [addLineItemAmounts, if_pos h]
  · intro h
    simp [addLineItemAmounts, if_neg h]
  · have hc : ((-10 : ℚ) < 0 ∧ (0 : ℚ) < 5) := by norm_num
    simp only [addLineItemAmounts, if_pos hc, e10, e5]
    norm_num
  · have hc : ¬((-10 : ℚ) < 0 ∧ (0 : ℚ) < -5) := by norm_num
    simp only [addLineItemAmounts, if_neg hc, e10, em5]
    norm_num

/-- C3 witness: the theorem applied at rate -10, quantity 5 and precisions
2 and 3, discharging the sign hypothesis there. -/
theorem line_item_sign_normalization_witness :
    ((-10 : ℚ) < 0 ∧ (0 : ℚ) < 5) ∧
    addLineItemAmounts (-10) 5 2 3 =
      { net_amount := -flt (-10) 2, billed_quantity := -flt 5 3 } :=
  ⟨by norm_num, (line_item_sign_normalization (-10) 5 2 3).1 (by norm_num)⟩

/-! ## Claim C4 -/

theorem retriever_get_nonempty (r : CommonCodeRetriever)
    (gcf : String → String → String → List String) (gdc : String → Option String)
    (h1 : CodesNonEmpty gcf) (hdef : r.default_code ≠ "")
    (records : List (String × String)) : r.get gcf gdc records ≠ "" := by
  unfold CommonCodeRetriever.get
  cases hc : r.get_code gcf records with
  | some c =>
    have := get_code_nonempty r gcf h1 records c hc
    simp [pyOrStr, this]
  | none =>
    cases hd : r.get_default_code gdc with
    | some d =>
      have : d ≠ "" := defaultFromLists_nonempty gdc r.code_lists d hd
      simp [pyOrStr, this]
    | none => simp [pyOrStr, hdef]

/-- C4: with the category resolved through `duty_tax_fee_category_codes`, a
category in {AE, E, G, K, Z} forces the emitted line tax rate to 0
regardless of any computed rate; any other category emits the item's
effective tax-template rate per `get_item_rate`; and whenever the emitted
rate value is exactly 0, the attached exemption-reason code is the
upper-cased resolution of `vat_exemption_reason_codes`, which is a
non-empty string. -/
theorem line_item_tax_category_rate
    (gcf : String → String → String → List String) (gdc : String → Option String)
    (ft : String → List ItemTaxRow) (itt : Option String)
    (inc tc stc : String) (taxes : List SalesTax)
    (h1 : CodesNonEmpty gcf) :
    (zeroRatedCategories.contains
        (addLineItemTax gcf gdc ft itt inc tc stc taxes).1 = true →
      (addLineItemTax gcf gdc ft itt inc tc stc taxes).2.1 = some 0) ∧
    (zeroRatedCategories.contains
        (addLineItemTax gcf gdc ft itt inc tc stc taxes).1 = false →
      (addLineItemTax gcf gdc ft itt inc tc stc taxes).2.1 =
        get_item_rate ft itt taxes) ∧
    ((addLineItemTax gcf gdc ft itt inc tc stc taxes).2.1 = some 0 →
      (addLineItemTax gcf gdc ft itt inc tc stc taxes).2.2 =
        some (pyUpper (vat_exemption_reason_codes.get gcf gdc
          (lineItemTaxRecords itt inc tc stc))) ∧
      vat_exemption_reason_codes.get gcf gdc (lineItemTaxRecords itt inc tc stc) ≠ "") := by
  refine ⟨?_, ?_, ?_⟩
  · intro h
    simp only [addLineItemTax] at h ⊢
    rw [if_pos h]
  · intro h
    simp only [addLineItemTax] at h ⊢
    rw [if_neg (by rw [h]; exact Bool.false_ne_true)]
  · intro h
    refine ⟨?_, retriever_get_nonempty vat_exemption_reason_codes gcf gdc h1
      (by decide) (lineItemTaxRecords itt inc tc stc)⟩
    simp only [addLineItemTax] at h ⊢
    rw [if_pos h]

/-- C4 witness: the theorem applied to a line resolving category Z whose
computed rate would have been 19: the emitted rate is 0 and the attached
exemption-reason code is the non-empty upper-cased VATEX-EU-AE. -/
theorem line_item_tax_category_rate_witness :
    CodesNonEmpty gcfCategoryZ ∧
    (addLineItemTax gcfCategoryZ gdcNone fetchNoTemplate none
      "Sales - C" "TC" "STC" [exampleOnNetTax]).2.1 = some 0 ∧
    (addLineItemTax gcfCategoryZ gdcNone fetchNoTemplate none
      "Sales - C" "TC" "STC" [exampleOnNetTax]).2.2 = some "VATEX-EU-AE" ∧
    get_item_rate fetchNoTemplate none [exampleOnNetTax] = some 19 := by
  have hcz : CodesNonEmpty gcfCategoryZ := by
    intro cl dt nm c hc
    simp only [gcfCategoryZ] at hc
    by_cases h : cl = "urn:xoev-de:kosit:codeliste:untdid.5305_3"
    · rw [if_pos h] at hc
      simp at hc
      rw [hc]
      decide
    · rw [if_neg h] at hc
      simp at hc
  have hz := line_item_tax_category_rate gcfCategoryZ gdcNone fetchNoTemplate none
    "Sales - C" "TC" "STC" [exampleOnNetTax] hcz
  have hrate := hz.1 (by decide)
  refine ⟨hcz, hrate, ?_, by decide⟩
  rw [(hz.2.2 hrate).1]
  decide

/-! ## Claim C5 -/

/-- C5: for an on-net-total tax row, if it is the invoice's only tax row the
emitted basis amount is the invoice net total, and if additionally the line
items shared exactly one tax rate while the row's effective rate is 0, the
emitted rate is the lines' shared rate (otherwise the effective rate);
with more than one tax row, a per-row net amount (the `net_amount` or, when
absent, `custom_net_amount` attribute) is the basis; otherwise, with both
tax amount and effective rate non-zero, the basis is
`round(amount / rate * 100, 2)`; otherwise the basis is 0. -/
theorem on_net_total_basis_and_rate
    (gcf : String → String → String → List String) (gdc : String → Option String)
    (atr : String → Option ℚ) (ctx : InvoiceCtx) (taxes : List SalesTax)
    (itr : List (Option ℚ)) (tax : SalesTax) :
    (taxes.length = 1 →
      (onNetTotalTradeTax gcf gdc atr ctx taxes itr tax).basis_amount = ctx.net_total) ∧
    (∀ r : Option ℚ, taxes.length = 1 → itr = [r] → effectiveTaxRate atr tax = 0 →
      (onNetTotalTradeTax gcf gdc atr ctx taxes itr tax).rate_applicable_percent = r) ∧
    (taxes.length = 1 → ¬(itr.length = 1 ∧ effectiveTaxRate atr tax = 0) →
      (onNetTotalTradeTax gcf gdc atr ctx taxes itr tax).rate_applicable_percent =
        some (effectiveTaxRate atr tax)) ∧
    (taxes.length ≠ 1 → ∀ v, tax.net_amount = some v →
      (onNetTotalTradeTax gcf gdc atr ctx taxes itr tax).basis_amount = v) ∧
    (taxes.length ≠ 1 → tax.net_amount = none → ∀ v, tax.custom_net_amount = some v →
      (onNetTotalTradeTax gcf gdc atr ctx taxes itr tax).basis_amount = v) ∧
    (taxes.length ≠ 1 → tax.net_amount = none → tax.custom_net_amount = none →
      tax.tax_amount ≠ 0 → effectiveTaxRate atr tax ≠ 0 →
      (onNetTotalTradeTax gcf gdc atr ctx taxes itr tax).basis_amount =
        pythonRound2 (tax.tax_amount / effectiveTaxRate atr tax * 100)) ∧
    (taxes.length ≠ 1 → tax.net_amount = none → tax.custom_net_amount = none →
      (tax.tax_amount = 0 ∨ effectiveTaxRate atr tax = 0) →
      (onNetTotalTradeTax gcf gdc atr ctx taxes itr tax).basis_amount = 0) := by
  refine ⟨?_, ?_, ?_, ?_, ?_, ?_, ?_⟩
  · intro h1
    by_cases h2 : itr.length = 1 ∧ effectiveTaxRate atr tax = 0
    · simp [onNetTotalTradeTax, h1, h2]
    · simp [onNetTotalTradeTax, h1, if_neg h2]
  · intro r h1 h2 h3
    subst h2
    simp [onNetTotalTradeTax, h1, h3]
  · intro h1 h2
    simp [onNetTotalTradeTax, h1, if_neg h2]
  · intro h1 v h2
    simp [onNetTotalTradeTax, h1, h2]
  · intro h1 h2 v h3
    simp [onNetTotalTradeTax, h1, h2, h3]
  · intro h1 h2 h3 h4 h5
    simp [onNetTotalTradeTax, h1, h2, h3, h4, h5]
  · intro h1 h2 h3 h4
    rcases h4 with h | h
    · simp [onNetTotalTradeTax, h1, h2, h3, h]
    · simp [onNetTotalTradeTax, h1, h2, h3, h]

/-- C5 witness: the theorem applied to the spec's scenario: a single tax row
with (effective) rate 0 and a single shared line-item rate of 7 emits the
rate 7 with the invoice net total 100 as basis. -/
theorem on_net_total_basis_and_rate_witness :
    ([exampleZeroRateTax].length = 1 ∧
     effectiveTaxRate atrNone exampleZeroRateTax = 0) ∧
    (onNetTotalTradeTax gcfNoHits gdcNone atrNone ⟨100, "TC", "STC"⟩
      [exampleZeroRateTax] [some 7] exampleZeroRateTax).basis_amount = 100 ∧
    (onNetTotalTradeTax gcfNoHits gdcNone atrNone ⟨100, "TC", "STC"⟩
      [exampleZeroRateTax] [some 7] exampleZeroRateTax).rate_applicable_percent =
      some 7 := by
  have h := on_net_total_basis_and_rate gcfNoHits gdcNone atrNone ⟨100, "TC", "STC"⟩
    [exampleZeroRateTax] [some 7] exampleZeroRateTax
  have heff : effectiveTaxRate atrNone exampleZeroRateTax = 0 := by decide
  exact ⟨⟨rfl, heff⟩, h.1 rfl, h.2.1 (some 7) rfl rfl heff⟩

/-! ## Claim C6 -/

/-- C6 counterexample: with an engine whose error line names the profile it
was invoked for, the import-side schematron validation of an XRECHNUNG
document differs from the generation-side validation: the import side misses
the EN16931 baseline pass. -/
theorem import_validation_differs_from_generation_cx :
    import_validate_schematron gveByProfile "xml" EInvoiceProfile.XRECHNUNG ≠
      validate_einvoice_validation gveByProfile "xml" EInvoiceProfile.XRECHNUNG := by
  decide

/-- C6 amended: import-side schematron validation performs a single
`get_validation_errors` pass with the document's own profile, for XRECHNUNG
as for every other profile; the additional EN16931 baseline pass, whose
errors and warnings are concatenated after the profile pass's own, happens
only in the generation-side `validate_einvoice`.  The two sides agree
exactly for non-XRECHNUNG profiles. -/
theorem import_validation_single_pass
    (gve : String → EInvoiceProfile → List String × List String)
    (xml : String) (p : EInvoiceProfile) :
    import_validate_schematron gve xml p = gve xml p ∧
    (p ≠ EInvoiceProfile.XRECHNUNG →
      validate_einvoice_validation gve xml p = import_validate_schematron gve xml p) ∧
    validate_einvoice_validation gve xml EInvoiceProfile.XRECHNUNG =
      ((gve xml EInvoiceProfile.XRECHNUNG).1 ++ (gve xml EInvoiceProfile.EN16931).1,
       (gve xml EInvoiceProfile.XRECHNUNG).2 ++ (gve xml EInvoiceProfile.EN16931).2) := by
  refine ⟨rfl, ?_, ?_⟩
  · intro h
    simp [validate_einvoice_validation, import_validate_schematron, h]
  · simp [validate_einvoice_validation]

/-- C6 witness: the amended theorem applied at the BASIC profile,
discharging the non-XRECHNUNG hypothesis there. -/
theorem import_validation_single_pass_witness :
    EInvoiceProfile.BASIC ≠ EInvoiceProfile.XRECHNUNG ∧
    validate_einvoice_validation gveByProfile "x" EInvoiceProfile.BASIC =
      import_validate_schematron gveByProfile "x" EInvoiceProfile.BASIC :=
  ⟨by decide,
   (import_validation_single_pass gveByProfile "x" EInvoiceProfile.BASIC).2.1 (by decide)⟩

/-! ## Claim C7 -/

/-- C7 counterexample: for a 141-character product name and description
"d", the import record's description is the FULL original name joined with
"d" — not, as claimed, the remainder beyond 140 characters joined with
"d". -/
theorem long_name_description_cx :
    (parseLineItemName longName141 "d").2 ≠ longName141.drop 140 ++ " | " ++ "d" ∧
    (parseLineItemName longName141 "d").2 = longName141 ++ " | " ++ "d" := by
  constructor
  · decide
  · decide

/-- C7 amended: a product name of more than 140 characters is stored
truncated to its first 140 characters, and the description becomes the full
original name joined with the original description, separated by " | ";
names of 140 characters or fewer are stored unmodified with the original
description. -/
theorem long_name_truncation_amended (name desc : String) :
    (name.length > 140 →
      parseLineItemName name desc = (name.take 140, name ++ " | " ++ desc)) ∧
    (¬ name.length > 140 → parseLineItemName name desc = (name, desc)) := by
  constructor
  · intro h
    simp [parseLineItemName, h]
  · intro h
    simp [parseLineItemName, h]

/-- C7 witness: the amended theorem applied at the 141-character name. -/
theorem long_name_truncation_amended_witness :
    longName141.length > 140 ∧
    parseLineItemName longName141 "d" = (longName141.take 140, longName141 ++ " | " ++ "d") :=
  ⟨by decide, (long_name_truncation_amended longName141 "d").1 (by decide)⟩

/-! ## Claim C8 -/

/-- C8 counterexample: in the claim's own scenario (one unbilled order line
of item X with unbilled amount 100, import lines needing 60 and 40), the
second import line does NOT fail: after consuming 60 the remaining 40 is
sufficient for the second line's 40 (the comparison is `>=`), so both lines
are allocated to the order line. -/
theorem guess_po_details_second_line_allocated_cx :
    (guess_po_details (some [⟨"POI-1", "ITEM-X", 100, 0⟩])
        [⟨some "ITEM-X", 60, none⟩, ⟨some "ITEM-X", 40, none⟩]).map
      EInvoiceItemRow.po_detail ≠ [some "POI-1", none] ∧
    (guess_po_details (some [⟨"POI-1", "ITEM-X", 100, 0⟩])
        [⟨some "ITEM-X", 60, none⟩, ⟨some "ITEM-X", 40, none⟩]).map
      EInvoiceItemRow.po_detail = [some "POI-1", some "POI-1"] := by
  have h : guess_po_details (some [⟨"POI-1", "ITEM-X", 100, 0⟩])
      [⟨some "ITEM-X", 60, none⟩, ⟨some "ITEM-X", 40, none⟩] =
      [⟨some "ITEM-X", 60, some "POI-1"⟩, ⟨some "ITEM-X", 40, some "POI-1"⟩] := by
    norm_num [guess_po_details, guessPoGo, findAlloc, mkPOItems, validPoDetail]
  rw [h]
  constructor
  · decide
  · decide

/-- C8 amended: allocation pairs unresolved import lines against remaining
unbilled order lines first-fit in a single pass in order of appearance
(matching on same item and remaining unbilled amount at least the line's
total amount, consuming the allocated amount, leaving already-valid
allocations untouched and clearing the allocation of lines that find no
match); in the 100-against-60-and-40 scenario the first line is allocated
(remaining 40 afterwards) and the second is allocated as well, since the
remaining 40 is sufficient for exactly 40 — a second line needing more than
the remaining amount, e.g. 50, fails and is left unassigned. -/
theorem guess_po_details_first_fit :
    (∀ (valid : List String) (pos : List POItemState) (row : EInvoiceItemRow)
        (rest : List EInvoiceItemRow),
      validPoDetail valid row.po_detail = true →
      guessPoGo valid pos (row :: rest) = row :: guessPoGo valid pos rest) ∧
    (∀ (valid : List String) (pos : List POItemState) (row : EInvoiceItemRow)
        (rest : List EInvoiceItemRow),
      validPoDetail valid row.po_detail = false →
      findAlloc pos row = none →
      guessPoGo valid pos (row :: rest) =
        { row with po_detail := none } :: guessPoGo valid pos rest) ∧
    (∀ (valid : List String) (pos pos2 : List POItemState) (row : EInvoiceItemRow)
        (rest : List EInvoiceItemRow) (n : String),
      validPoDetail valid row.po_detail = false →
      findAlloc pos row = some (n, pos2) →
      guessPoGo valid pos (row :: rest) =
        { row with po_detail := some n } :: guessPoGo valid pos2 rest) ∧
    (∀ (pos pos2 : List POItemState) (row : EInvoiceItemRow) (n : String),
      findAlloc pos row = some (n, pos2) →
      ∃ po ∈ pos, po.name = n ∧ row.item = some po.item_code ∧
        row.total_amount ≤ po.unbilled_amount) ∧
    findAlloc [⟨"POI-1", "ITEM-X", 100⟩] ⟨some "ITEM-X", 60, none⟩ =
      some ("POI-1", [⟨"POI-1", "ITEM-X", 40⟩]) ∧
    (guess_po_details (some [⟨"POI-1", "ITEM-X", 100, 0⟩])
        [⟨some "ITEM-X", 60, none⟩, ⟨some "ITEM-X", 40, none⟩]).map
      EInvoiceItemRow.po_detail = [some "POI-1", some "POI-1"] ∧
    (guess_po_details (some [⟨"POI-1", "ITEM-X", 100, 0⟩])
        [⟨some "ITEM-X", 60, none⟩, ⟨some "ITEM-X", 50, none⟩]).map
      EInvoiceItemRow.po_detail = [some "POI-1", none] := by
  refine ⟨?_, ?_, ?_, ?_, ?_, ?_, ?_⟩
  · intro valid pos row rest h
    simp [guessPoGo, h]
  · intro valid pos row rest h h2
    simp [guessPoGo, h, h2]
  · intro valid pos pos2 row rest n h h2
    simp [guessPoGo, h, h2]
  · intro pos
    induction pos with
    | nil => intro pos2 row n h; simp [findAlloc] at h
    | cons po rest ih =>
      intro pos2 row n h
      by_cases hc : row.item = some po.item_code ∧ row.total_amount ≤ po.unbilled_amount
      · simp only [findAlloc, if_pos hc, Option.some.injEq, Prod.mk.injEq] at h
        exact ⟨po, by simp, h.1, hc.1, hc.2⟩
      · simp only [findAlloc, if_neg hc] at h
        cases hf : findAlloc rest row with
        | none => rw [hf] at h; cases h
        | some p =>
          rw [hf] at h
          obtain ⟨m, rest2⟩ := p
          simp only [Option.some.injEq, Prod.mk.injEq] at h
          obtain ⟨po2, hmem, hprops⟩ := ih rest2 row m hf
          exact ⟨po2, by simp [hmem], h.1 ▸ hprops⟩
  · norm_num [findAlloc]
  · norm_num [guess_po_details, guessPoGo, findAlloc, mkPOItems, validPoDetail]
  · norm_num [guess_po_details, guessPoGo, findAlloc, mkPOItems, validPoDetail]

/-- C8 witness: the amended theorem's untouched-valid-allocation component
applied at a concrete already-valid allocation. -/
theorem guess_po_details_first_fit_witness :
    validPoDetail ["POI-1"] (some "POI-1") = true ∧
    guessPoGo ["POI-1"] [] [⟨some "ITEM-X", 60, some "POI-1"⟩] =
      [⟨some "ITEM-X", 60, some "POI-1"⟩] := by
  refine ⟨by decide, ?_⟩
  have h := guess_po_details_first_fit.1 ["POI-1"] []
    ⟨some "ITEM-X", 60, some "POI-1"⟩ [] (by decide)
  rw [h]
  rfl

/-! ## Claim C9 -/

theorem cons_get?_pred (a : α) (l : List α) :
    (a :: l).get? ((a :: l).length - 1) = some ((a :: l).getLastD a) := by
  induction l generalizing a with
  | nil => rfl
  | cons b t ih =>
    have h := ih b
    simp only [List.length_cons, Nat.add_sub_cancel] at h ⊢
    simpa [List.getLastD] using h

/-- C9: for a tax row with charge type "On Previous Row Amount" or "On
Previous Row Total" at index 0, reconstruction does not fail: Python's
`taxes[i - 1]` at `i = 0` wraps around to index -1, so both the basis amount
(`tax_amount`, respectively `total`) and the Actual-row check selecting the
VAT-versus-SUR type code read the invoice's LAST tax row; for `i ≥ 1` the
basis comes from the genuinely preceding row `taxes[i - 1]`, as the spec's
rule states. -/
theorem previous_row_wraparound
    (gcf : String → String → String → List String) (gdc : String → Option String)
    (ctx : InvoiceCtx) (tax : SalesTax) (rest : List SalesTax) :
    (∃ e, onPreviousRowAmountTradeTax gcf gdc ctx (tax :: rest) 0 tax = some e ∧
      e.basis_amount = ((tax :: rest).getLastD tax).tax_amount ∧
      e.type_code =
        (if ((tax :: rest).getLastD tax).charge_type = "Actual" then "VAT" else "SUR")) ∧
    (∃ e, onPreviousRowTotalTradeTax gcf gdc ctx (tax :: rest) 0 tax = some e ∧
      e.basis_amount = ((tax :: rest).getLastD tax).total ∧
      e.type_code =
        (if ((tax :: rest).getLastD tax).charge_type = "Actual" then "VAT" else "SUR")) ∧
    (∀ (i : ℕ) (t prev : SalesTax), 1 ≤ i → (tax :: rest).get? (i - 1) = some prev →
      ∃ e, onPreviousRowAmountTradeTax gcf gdc ctx (tax :: rest) i t = some e ∧
        e.basis_amount = prev.tax_amount ∧
        e.type_code = (if prev.charge_type = "Actual" then "VAT" else "SUR")) := by
  have hwrap : pyGet (tax :: rest) (((0 : ℕ) : ℤ) - 1) =
      some ((tax :: rest).getLastD tax) := by
    have h1 : ¬ (0 : ℤ) ≤ ((0 : ℕ) : ℤ) - 1 := by norm_num
    have h2 : (-(((0 : ℕ) : ℤ) - 1)).toNat = 1 := by norm_num
    rw [pyGet, if_neg h1, h2, if_pos (by simp)]
    exact cons_get?_pred tax rest
  refine ⟨?_, ?_, ?_⟩
  · refine ⟨⟨if ((tax :: rest).getLastD tax).charge_type = "Actual" then "VAT" else "SUR",
      duty_tax_fee_category_codes.get gcf gdc (taxRowRecords tax ctx),
      some tax.rate, ((tax :: rest).getLastD tax).tax_amount, tax.tax_amount⟩, ?_, rfl, rfl⟩
    rw [onPreviousRowAmountTradeTax, onPreviousRowTradeTax, hwrap]
  · refine ⟨⟨if ((tax :: rest).getLastD tax).charge_type = "Actual" then "VAT" else "SUR",
      duty_tax_fee_category_codes.get gcf gdc (taxRowRecords tax ctx),
      some tax.rate, ((tax :: rest).getLastD tax).total, tax.tax_amount⟩, ?_, rfl, rfl⟩
    rw [onPreviousRowTotalTradeTax, onPreviousRowTradeTax, hwrap]
  · intro i t prev hi hprev
    have hnn : (0 : ℤ) ≤ (i : ℤ) - 1 := by omega
    have htn : ((i : ℤ) - 1).toNat = i - 1 := by omega
    refine ⟨⟨if prev.charge_type = "Actual" then "VAT" else "SUR",
      duty_tax_fee_category_codes.get gcf gdc (taxRowRecords t ctx),
      some t.rate, prev.tax_amount, t.tax_amount⟩, ?_, rfl, rfl⟩
    rw [onPreviousRowAmountTradeTax, onPreviousRowTradeTax, pyGet, if_pos hnn, htn, hprev]

/-- C9 witness: the theorem applied to a first tax row of type "On Previous
Row Amount" followed by an "Actual" service charge: the emitted basis is the
LAST row's tax amount 25 and the type code is VAT (the Actual check fired on
the last row); and its general component applied at i = 1, whose premises
(1 ≤ 1 and the lookup of the genuinely preceding row) are discharged
concretely: there the basis is the FIRST row's tax amount 0. -/
theorem previous_row_wraparound_witness :
    (1 ≤ 1 ∧ ([⟨"On Previous Row Amount", 19, 0, 0, "A", none, none⟩,
        (⟨"Actual", 0, 25, 0, "B", none, none⟩ : SalesTax)].get? (1 - 1) =
      some ⟨"On Previous Row Amount", 19, 0, 0, "A", none, none⟩)) ∧
    (∃ e, onPreviousRowAmountTradeTax gcfNoHits gdcNone ⟨100, "TC", "STC"⟩
        [⟨"On Previous Row Amount", 19, 0, 0, "A", none, none⟩,
         ⟨"Actual", 0, 25, 0, "B", none, none⟩] 0
        ⟨"On Previous Row Amount", 19, 0, 0, "A", none, none⟩ = some e ∧
      e.basis_amount = 25 ∧ e.type_code = "VAT") ∧
    (∃ e, onPreviousRowAmountTradeTax gcfNoHits gdcNone ⟨100, "TC", "STC"⟩
        [⟨"On Previous Row Amount", 19, 0, 0, "A", none, none⟩,
         ⟨"Actual", 0, 25, 0, "B", none, none⟩] 1
        ⟨"Actual", 0, 25, 0, "B", none, none⟩ = some e ∧
      e.basis_amount = 0) := by
  refine ⟨⟨le_refl 1, rfl⟩, ?_, ?_⟩
  · obtain ⟨e, he, hb, ht⟩ := (previous_row_wraparound gcfNoHits gdcNone ⟨100, "TC", "STC"⟩
      ⟨"On Previous Row Amount", 19, 0, 0, "A", none, none⟩
      [⟨"Actual", 0, 25, 0, "B", none, none⟩]).1
    refine ⟨e, he, ?_, ?_⟩
    · rw [hb]; rfl
    · rw [ht]; rfl
  · obtain ⟨e, he, hb, ht⟩ := (previous_row_wraparound gcfNoHits gdcNone ⟨100, "TC", "STC"⟩
      ⟨"On Previous Row Amount", 19, 0, 0, "A", none, none⟩
      [⟨"Actual", 0, 25, 0, "B", none, none⟩]).2.2 1
      ⟨"Actual", 0, 25, 0, "B", none, none⟩
      ⟨"On Previous Row Amount", 19, 0, 0, "A", none, none⟩ (le_refl 1) rfl
    exact ⟨e, he, hb⟩

/-! ## Claim C10 -/

/-- C10 counterexample: an explicit basis quantity of 0 does NOT make
`parse_line_item` raise: `Decimal("0")` is falsy, so `_amount or "1"`
replaces it by 1 and the derived rate is the net amount itself. -/
theorem basis_quantity_zero_no_raise_cx :
    parseLineItemNetRate 10 (some 0) ≠ none ∧
    parseLineItemNetRate 10 (some 0) = some 10 := by
  have h : parseLineItemNetRate 10 (some 0) = some 10 := by
    norm_num [parseLineItemNetRate]
  rw [h]
  exact ⟨by simp, rfl⟩

/-- C10 amended: the unit net rate is the emitted net amount divided by the
basis quantity, where Python's `or` default treats both an absent basis
quantity and an explicit basis quantity of 0 as falsy and replaces them by
1; the division therefore never divides by zero and parsing is total in
this respect, with no precondition. -/
theorem parse_rate_total_amended (net : ℚ) (bq : Option ℚ) :
    (parseLineItemNetRate net bq).isSome = true ∧
    (bq = none ∨ bq = some 0 → parseLineItemNetRate net bq = some net) ∧
    (∀ q : ℚ, bq = some q → q ≠ 0 → parseLineItemNetRate net bq = some (net / q)) := by
  refine ⟨?_, ?_, ?_⟩
  · cases bq with
    | none => simp [parseLineItemNetRate]
    | some q =>
      by_cases hq : q = 0
      · simp [parseLineItemNetRate, hq]
      · simp [parseLineItemNetRate, hq]
  · intro h
    rcases h with h | h <;> rw [h] <;> simp [parseLineItemNetRate]
  · intro q h hq
    rw [h]
    simp [parseLineItemNetRate, hq]

/-- C10 witness: the amended theorem applied at net amount 10 and explicit
basis quantity 0. -/
theorem parse_rate_total_amended_witness :
    (some (0 : ℚ) = none ∨ some (0 : ℚ) = some 0) ∧
    parseLineItemNetRate 10 (some 0) = some 10 :=
  ⟨Or.inr rfl, (parse_rate_total_amended 10 (some 0)).2.1 (Or.inr rfl)⟩

end EUEInvoice
